import Mathlib

/-!
Shallow embedding of `internal/proxy/proxy.go` from lxc-dev-manager:
a TCP forwarding proxy (`Proxy`) with a bounded admission semaphore,
an accept loop, per-connection bidirectional relay with half-close,
and a `Manager` holding a list of proxies.

Concurrency is embedded as a labeled small-step transition system on an
explicit `ForwarderState`; pure parts (the byte relay, the deadline
computation, `New`, `Start`, `Add`) are embedded as Lean functions.
All times are in seconds.
-/

namespace Proxy

/-- `MaxConnectionsPerProxy` limits concurrent connections per proxy
    (proxy.go line 13). -/
def MaxConnectionsPerProxy : Nat := 100

/-- `ConnectionTimeout` (30s), the deadline constant used by `handleConnection`
    (proxy.go line 15), in seconds. -/
def ConnectionTimeout : Nat := 30

/-- `DialTimeout` (5s), the timeout for establishing remote connections
    (proxy.go line 17), in seconds. -/
def DialTimeout : Nat := 5

/-! ## Byte relay (`io.Copy`, proxy.go lines 113-129)

`io.Copy(dst, src)` repeatedly reads a chunk from `src` and writes that chunk
verbatim to `dst`, until `src` reaches end of stream.  A stream is modeled as
the list of chunks in arrival order; a chunk is a list of bytes. -/

/-- The byte sequence `io.Copy` delivers to its destination, given the chunks
    read from the source: each chunk is appended verbatim, nothing else. -/
def ioCopy : List (List Nat) → List Nat
  | [] => []
  | c :: rest => c ++ ioCopy rest

/-- `ioCopy` delivers exactly the concatenation of the source chunks. -/
theorem ioCopy_eq_join (cs : List (List Nat)) : ioCopy cs = cs.flatten := by
  induction cs with
  | nil => rfl
  | cons c rest ih => simp [ioCopy, ih]

/-! ## Forwarder lifecycle as a labeled transition system

State of one `Proxy` value after a successful `Start` (proxy.go lines 21-28):
`done` channel, listener, accept loop, connection-handler goroutines, the
`connSem` semaphore and the `sync.WaitGroup` counter. -/

structure ForwarderState where
  /-- the `done` channel has been closed (by `Stop`, proxy.go line 56) -/
  doneClosed : Bool
  /-- the listening socket is bound and not yet closed -/
  listenerOpen : Bool
  /-- the `acceptLoop` goroutine is still running -/
  loopRunning : Bool
  /-- number of `handleConnection` goroutines currently running -/
  handlers : Nat
  /-- number of slots currently held in `connSem` -/
  semCount : Nat
  /-- the `sync.WaitGroup` counter `wg` -/
  wgCount : Nat
  /-- connections closed at admission (gate full) without any relay -/
  rejected : Nat
  /-- number of times `listener.Close()` has been called -/
  listenerCloses : Nat
  /-- `Stop` has been entered (and `close(done)`, `listener.Close()` ran) -/
  stopCalled : Bool
  /-- `Stop` has returned (its `wg.Wait()` completed) -/
  stopReturned : Bool
deriving DecidableEq, Repr

/-- The state right after a successful `Start` (proxy.go lines 41-52):
    listener bound, `wg.Add(1)` done, `acceptLoop` spawned. -/
def started : ForwarderState :=
  { doneClosed := false, listenerOpen := true, loopRunning := true,
    handlers := 0, semCount := 0, wgCount := 1, rejected := 0,
    listenerCloses := 0, stopCalled := false, stopReturned := false }

/-- Transition labels for the Forwarder system. -/
inductive Label
  /-- `Accept` returned a connection and the non-blocking semaphore send
      succeeded: spawn a handler (proxy.go lines 79-81) -/
  | acceptAdmit
  /-- `Accept` returned a connection, the semaphore was full: close the
      connection (proxy.go lines 82-85) -/
  | acceptReject
  /-- `Accept` returned an error while `done` is open: retry
      (proxy.go lines 72-73) -/
  | acceptErrRetry
  /-- `Accept` returned an error while `done` is closed: the loop returns,
      running its deferred `wg.Done()` (proxy.go lines 64, 70-71) -/
  | acceptErrExit
  /-- a `handleConnection` goroutine finished: its deferred block closes the
      local connection, releases the semaphore slot and calls `wg.Done()`
      (proxy.go lines 90-94) -/
  | handlerDone
  /-- `Stop` entered: `close(done)` then `listener.Close()`
      (proxy.go lines 56-59) -/
  | stopBegin
  /-- `Stop`'s `wg.Wait()` returned (proxy.go line 60) -/
  | stopFinish
deriving DecidableEq, Repr

/-- Effect of the first phase of `Stop` (proxy.go lines 56-59):
    close the `done` channel, then close the listener. -/
def stopBeginUpdate (s : ForwarderState) : ForwarderState :=
  { s with doneClosed := true, listenerOpen := false,
           listenerCloses := s.listenerCloses + 1, stopCalled := true }

/-- Small-step semantics of the Forwarder, one constructor per source
    code path. -/
inductive Step : Label → ForwarderState → ForwarderState → Prop
  | acceptAdmit (s : ForwarderState) (hl : s.loopRunning = true)
      (ho : s.listenerOpen = true) (hsem : s.semCount < MaxConnectionsPerProxy) :
      Step .acceptAdmit s
        { s with semCount := s.semCount + 1, wgCount := s.wgCount + 1,
                 handlers := s.handlers + 1 }
  | acceptReject (s : ForwarderState) (hl : s.loopRunning = true)
      (ho : s.listenerOpen = true) (hsem : MaxConnectionsPerProxy ≤ s.semCount) :
      Step .acceptReject s { s with rejected := s.rejected + 1 }
  | acceptErrRetry (s : ForwarderState) (hl : s.loopRunning = true)
      (hd : s.doneClosed = false) :
      Step .acceptErrRetry s s
  | acceptErrExit (s : ForwarderState) (hl : s.loopRunning = true)
      (hd : s.doneClosed = true) :
      Step .acceptErrExit s { s with loopRunning := false, wgCount := s.wgCount - 1 }
  | handlerDone (s : ForwarderState) (hh : 0 < s.handlers) :
      Step .handlerDone s
        { s with handlers := s.handlers - 1, semCount := s.semCount - 1,
                 wgCount := s.wgCount - 1 }
  | stopBegin (s : ForwarderState) (hd : s.doneClosed = false) :
      Step .stopBegin s (stopBeginUpdate s)
  | stopFinish (s : ForwarderState) (hc : s.stopCalled = true)
      (hr : s.stopReturned = false) (hwg : s.wgCount = 0) :
      Step .stopFinish s { s with stopReturned := true }

/-- States reachable from the post-`Start` state. -/
inductive Reachable : ForwarderState → Prop
  | init : Reachable started
  | step {s t : ForwarderState} {l : Label} :
      Reachable s → Step l s t → Reachable t

/-- The inductive invariant of the Forwarder system. -/
def Inv (s : ForwarderState) : Prop :=
  s.semCount ≤ MaxConnectionsPerProxy ∧
  s.handlers = s.semCount ∧
  s.wgCount = s.handlers + (if s.loopRunning then 1 else 0) ∧
  (s.loopRunning = false → s.doneClosed = true) ∧
  (s.stopCalled = true ↔ s.doneClosed = true) ∧
  s.listenerCloses = (if s.stopCalled then 1 else 0) ∧
  (s.stopCalled = true → s.listenerOpen = false) ∧
  (s.stopReturned = true → s.stopCalled = true) ∧
  (s.stopReturned = true → s.wgCount = 0)

theorem inv_started : Inv started := by
  simp [Inv, started, MaxConnectionsPerProxy]

theorem inv_step {l : Label} {s t : ForwarderState}
    (hs : Inv s) (h : Step l s t) : Inv t := by
  obtain ⟨h1, h2, h3, h4, h5, h6, h7, h8, h9⟩ := hs
  cases h with
  | acceptAdmit s hl ho hsem =>
    refine ⟨hsem, ?_, ?_, ?_, ?_, ?_, ?_, ?_, ?_⟩ <;> simp_all
  | acceptReject s hl ho hsem =>
    refine ⟨h1, h2, h3, h4, h5, h6, h7, h8, h9⟩
  | acceptErrRetry s hl hd =>
    exact ⟨h1, h2, h3, h4, h5, h6, h7, h8, h9⟩
  | acceptErrExit s hl hd =>
    refine ⟨h1, h2, ?_, ?_, h5, h6, h7, h8, ?_⟩ <;> simp_all
  | handlerDone s hh =>
    refine ⟨?_, ?_, ?_, h4, h5, h6, h7, h8, ?_⟩ <;> simp_all <;> omega
  | stopBegin s hd =>
    refine ⟨h1, h2, h3, ?_, ?_, ?_, ?_, ?_, ?_⟩ <;>
      simp_all [stopBeginUpdate]
  | stopFinish s hc hr hwg =>
    exact ⟨h1, h2, h3, h4, h5, h6, h7, fun _ => hc, fun _ => hwg⟩

theorem inv_reachable {s : ForwarderState} (h : Reachable s) : Inv s := by
  induction h with
  | init => exact inv_started
  | step _ hstep ih => exact inv_step ih hstep

/-! ## Per-connection relay: half-close and joint cleanup
    (`handleConnection`, proxy.go lines 110-134)

Direction 1 is `io.Copy(remote, local)` (local to remote, proxy.go lines
113-120); direction 2 is `io.Copy(local, remote)` (proxy.go lines 122-129).
Each TCP connection has an independently closable read half and write half. -/

structure HandlerState where
  /-- the local-to-remote copy goroutine has finished -/
  dir1Done : Bool
  /-- the remote-to-local copy goroutine has finished -/
  dir2Done : Bool
  /-- write half of the remote connection is open -/
  remoteWriteOpen : Bool
  /-- read half of the remote connection is open -/
  remoteReadOpen : Bool
  /-- write half of the local connection is open -/
  localWriteOpen : Bool
  /-- read half of the local connection is open -/
  localReadOpen : Bool
  /-- the handler's final cleanup ran: both connections fully closed,
      semaphore slot released, `wg.Done()` called -/
  cleanedUp : Bool
deriving DecidableEq, Repr

/-- Handler state right after both relay goroutines are spawned: both
    connections fully open, nothing finished. -/
def handlerStart : HandlerState :=
  { dir1Done := false, dir2Done := false, remoteWriteOpen := true,
    remoteReadOpen := true, localWriteOpen := true, localReadOpen := true,
    cleanedUp := false }

/-- Transition labels inside one `handleConnection`. -/
inductive HLabel
  /-- the local-to-remote copy reaches end of stream:
      `remote.CloseWrite()` (proxy.go lines 114-119) -/
  | dir1EOF
  /-- the remote-to-local copy reaches end of stream:
      `local.CloseWrite()` (proxy.go lines 123-128) -/
  | dir2EOF
  /-- after both `<-done` receives (proxy.go lines 132-133), the deferred
      cleanup and `defer remote.Close()` run (proxy.go lines 90-94, 105) -/
  | cleanup
deriving DecidableEq, Repr

/-- Small-step semantics of one connection handler. -/
inductive HStep : HLabel → HandlerState → HandlerState → Prop
  | dir1EOF (s : HandlerState) (h : s.dir1Done = false) (hc : s.cleanedUp = false) :
      HStep .dir1EOF s { s with dir1Done := true, remoteWriteOpen := false }
  | dir2EOF (s : HandlerState) (h : s.dir2Done = false) (hc : s.cleanedUp = false) :
      HStep .dir2EOF s { s with dir2Done := true, localWriteOpen := false }
  | cleanup (s : HandlerState) (h1 : s.dir1Done = true) (h2 : s.dir2Done = true)
      (hc : s.cleanedUp = false) :
      HStep .cleanup s
        { s with remoteWriteOpen := false, remoteReadOpen := false,
                 localWriteOpen := false, localReadOpen := false,
                 cleanedUp := true }

/-- Handler states reachable from `handlerStart`. -/
inductive HReachable : HandlerState → Prop
  | init : HReachable handlerStart
  | step {s t : HandlerState} {l : HLabel} :
      HReachable s → HStep l s t → HReachable t

/-- Inductive invariant of the handler system. -/
def HInv (s : HandlerState) : Prop :=
  (s.cleanedUp = true → s.dir1Done = true ∧ s.dir2Done = true) ∧
  (s.cleanedUp = false → s.remoteReadOpen = true ∧ s.localReadOpen = true) ∧
  (s.dir1Done = true → s.remoteWriteOpen = false) ∧
  (s.dir2Done = true → s.localWriteOpen = false) ∧
  (s.dir1Done = false → s.remoteWriteOpen = true) ∧
  (s.dir2Done = false → s.localWriteOpen = true)

theorem hinv_reachable {s : HandlerState} (h : HReachable s) : HInv s := by
  induction h with
  | init => simp [HInv, handlerStart]
  | step _ hstep ih =>
    obtain ⟨i1, i2, i3, i4, i5, i6⟩ := ih
    cases hstep with
    | dir1EOF s h hc =>
      refine ⟨?_, ?_, ?_, ?_, ?_, ?_⟩ <;> simp_all
    | dir2EOF s h hc =>
      refine ⟨?_, ?_, ?_, ?_, ?_, ?_⟩ <;> simp_all
    | cleanup s h1 h2 hc =>
      refine ⟨?_, ?_, ?_, ?_, ?_, ?_⟩ <;> simp_all

/-! ## Connection deadline (`handleConnection`, proxy.go lines 96-97, 107-108)

`local.SetDeadline(time.Now().Add(ConnectionTimeout))` is called exactly once,
when the handler starts (and likewise once on the remote connection).  In Go,
`SetDeadline` sets an absolute point in time after which every pending and
future I/O operation on the connection fails with a timeout error; the
deadline is never extended afterwards by this code.

A connection's activity is modeled as the nondecreasing list of completion
times of its I/O operations, in seconds since the handler started. -/

/-- What the code does: an I/O operation fails (aborting the relay) exactly
    when it would complete after the fixed deadline set at handler start. -/
def deadlineAborts (ioTimes : List Nat) : Bool :=
  ioTimes.any (fun t => decide (ConnectionTimeout < t))

/-- Silent gaps of an activity trace: time from handler start to the first
    I/O completion, then between consecutive completions. -/
def silentGaps (prev : Nat) : List Nat → List Nat
  | [] => []
  | t :: rest => (t - prev) :: silentGaps t rest

/-- Modelled from the spec: idle-deadline semantics, under which a relay
    direction is aborted exactly when it goes silent for longer than
    `ConnectionTimeout` between two I/O operations. -/
def specIdleAborts (ioTimes : List Nat) : Bool :=
  (silentGaps 0 ioTimes).any (fun g => decide (ConnectionTimeout < g))

/-! ## `New`, `Start`, `Add` (proxy.go lines 30-52, 148-159) -/

/-- Error returned by `Start` when `net.Listen` fails
    (proxy.go lines 43-45): wraps the port it failed to listen on. -/
structure BindError where
  port : Int
deriving DecidableEq, Repr

/-- The construction-time fields of the `Proxy` struct
    (proxy.go lines 21-28, 30-38): `New` stores `localPort` unchanged and
    formats `RemoteAddr` as `host:port`; it performs no validation. -/
structure ProxyRec where
  localPort : Int
  remoteAddr : String
deriving DecidableEq, Repr

/-- `New` (proxy.go lines 31-38). -/
def New (localPort : Int) (remoteHost : String) (remotePort : Int) : ProxyRec :=
  { localPort := localPort,
    remoteAddr := remoteHost ++ ":" ++ toString remotePort }

/-- `Start` (proxy.go lines 41-52), parameterized by the socket layer
    `listen` (the result of `net.Listen("tcp", ":port")` for each port).
    Returns the started Forwarder state or the bind error, paired with the
    number of background goroutines this call spawned: on listen failure it
    returns before `wg.Add(1)` and `go p.acceptLoop()`, so nothing is
    spawned and no resource is held. -/
def start (p : ProxyRec) (listen : Int → Except BindError Unit) :
    Except BindError ForwarderState × Nat :=
  match listen p.localPort with
  | .error e => (.error e, 0)
  | .ok _ => (.ok started, 1)

/-- `Manager.Add` (proxy.go lines 148-159): construct `New`, call `Start`;
    on error return it without touching `proxies`; on success append the new
    proxy.  Returns the error (if any) and the resulting `proxies` list. -/
def add (proxies : List ProxyRec) (localPort : Int) (remoteHost : String)
    (remotePort : Int) (listen : Int → Except BindError Unit) :
    Option BindError × List ProxyRec :=
  let p := New localPort remoteHost remotePort
  match (start p listen).fst with
  | .error e => (some e, proxies)
  | .ok _ => (none, proxies ++ [p])

/-! ## `handleConnection` outcome (proxy.go lines 89-134) -/

/-- Result of `dialer.Dial("tcp", p.RemoteAddr)` with
    `net.Dialer{Timeout: DialTimeout}` (proxy.go lines 100-101): whether it
    produced a connection, and how many seconds it took to return. -/
structure DialResult where
  success : Bool
  elapsed : Nat
deriving DecidableEq, Repr

/-- Externally observable outcome of one `handleConnection` call. -/
structure HandlerOutcome where
  /-- the local connection was closed (deferred `local.Close()`, line 91) -/
  localClosed : Bool
  /-- bytes relayed to the remote target on behalf of this connection -/
  bytesRelayed : List Nat
  /-- error surfaced to any caller (`handleConnection` returns nothing) -/
  errSurfaced : Option BindError
  /-- the semaphore slot was released (deferred `<-p.connSem`, line 92) -/
  slotReleased : Bool
  /-- `wg.Done()` was called (deferred, line 93) -/
  wgDone : Bool
  /-- seconds after accept at which the handler returned, running its
      deferred cleanup -/
  finishedAt : Nat
deriving DecidableEq, Repr

/-- `handleConnection` as a function of the dial result (proxy.go lines
    89-134).  `relayed` and `relayDuration` abstract the bidirectional-copy
    phase (lines 110-134), which runs only when the dial succeeds; on dial
    failure (lines 102-104) the handler returns immediately, its deferred
    block closing the local connection, releasing the slot and marking the
    wait group, with no data relayed and no error surfaced. -/
def handleConnection (d : DialResult) (relayed : List Nat)
    (relayDuration : Nat) : HandlerOutcome :=
  if d.success then
    { localClosed := true, bytesRelayed := relayed, errSurfaced := none,
      slotReleased := true, wgDone := true,
      finishedAt := d.elapsed + relayDuration }
  else
    { localClosed := true, bytesRelayed := [], errSurfaced := none,
      slotReleased := true, wgDone := true, finishedAt := d.elapsed }

/-! ## `Stop` and Go channel-close semantics (proxy.go lines 55-61) -/

/-- Outcome of executing `close(p.done)` inside `Stop`. -/
inductive StopOutcome
  | returned
  | panicked
deriving DecidableEq, Repr

/-- The first statement of `Stop` is `close(p.done)` (proxy.go line 56).
    Per the Go specification, closing an already-closed channel panics;
    otherwise the channel becomes closed and `Stop` proceeds to
    `listener.Close()`. -/
def stopCloseDone (s : ForwarderState) : StopOutcome × ForwarderState :=
  if s.doneClosed then (.panicked, s)
  else (.returned, stopBeginUpdate s)

/-! ## Claim theorems -/

/-- Claim C1: round-trip fidelity.  For every byte sequence `B` written by a
    client, delivered to the proxy as chunks `clientChunks`, relayed by
    `io.Copy` to an echo backend whose reply arrives back as chunks
    `echoChunks`, the client reads back exactly `B`: the relay is
    byte-transparent and modifies no bytes in either direction. -/
theorem roundtrip_fidelity (B : List Nat) (clientChunks echoChunks : List (List Nat))
    (hc : clientChunks.flatten = B)
    (he : echoChunks.flatten = ioCopy clientChunks) :
    ioCopy echoChunks = B := by
  rw [ioCopy_eq_join, he, ioCopy_eq_join, hc]

/-- Witness for C1 at `B = [104, 105]` relayed in concrete chunkings. -/
theorem roundtrip_fidelity_witness :
    ([[104], [105]] : List (List Nat)).flatten = [104, 105] ∧
    ([[104, 105]] : List (List Nat)).flatten = ioCopy [[104], [105]] ∧
    ioCopy [[104, 105]] = [104, 105] :=
  ⟨by decide, by decide,
   roundtrip_fidelity [104, 105] [[104], [105]] [[104, 105]] (by decide) (by decide)⟩

/-- Claim C2: admission bound.  In every reachable Forwarder state the number
    of running connection handlers never exceeds `MaxConnectionsPerProxy`
    (each handler holds exactly one semaphore slot); when the gate is full
    the non-blocking acquire fails, so no admit step exists, and the reject
    step spawns no handler, takes no slot, touches no wait-group count, and
    closes the connection without relaying data. -/
theorem admission_bound (s : ForwarderState) (h : Reachable s) :
    s.handlers ≤ MaxConnectionsPerProxy ∧
    s.handlers = s.semCount ∧
    (∀ t, Step .acceptReject s t →
       MaxConnectionsPerProxy ≤ s.semCount ∧
       t.handlers = s.handlers ∧ t.semCount = s.semCount ∧
       t.wgCount = s.wgCount ∧ t.rejected = s.rejected + 1) ∧
    (MaxConnectionsPerProxy ≤ s.semCount → ∀ t, ¬ Step .acceptAdmit s t) := by
  obtain ⟨h1, h2, _⟩ := inv_reachable h
  refine ⟨h2 ▸ h1, h2, ?_, ?_⟩
  · intro t hst
    cases hst with
    | acceptReject s hl ho hsem => exact ⟨hsem, rfl, rfl, rfl, rfl⟩
  · intro hfull t hst
    cases hst with
    | acceptAdmit s hl ho hsem => omega

/-- Witness for C2 at the post-`Start` state. -/
theorem admission_bound_witness :
    Reachable started ∧ started.handlers ≤ MaxConnectionsPerProxy :=
  ⟨Reachable.init, (admission_bound started Reachable.init).1⟩

/-- Claim C3: stop invariant.  In every reachable state the listening socket
    has been closed exactly once if `Stop` ran and zero times otherwise
    (only `Stop` closes it); and once `Stop` has returned, the wait group is
    drained — the accept loop and every connection handler have terminated —
    and the listening socket is no longer held, so the local port is free
    for a new listener. -/
theorem stop_invariant (s : ForwarderState) (h : Reachable s) :
    s.listenerCloses = (if s.stopCalled then 1 else 0) ∧
    (s.stopReturned = true →
       s.wgCount = 0 ∧ s.handlers = 0 ∧ s.loopRunning = false ∧
       s.listenerOpen = false) := by
  obtain ⟨h1, h2, h3, h4, h5, h6, h7, h8, h9⟩ := inv_reachable h
  refine ⟨h6, fun hr => ?_⟩
  have hwg := h9 hr
  have hcall := h8 hr
  have hopen := h7 hcall
  have hlr : s.loopRunning = false := by
    cases hl : s.loopRunning with
    | false => rfl
    | true => rw [hl] at h3; simp at h3; omega
  have hh : s.handlers = 0 := by
    rw [hlr] at h3; simp at h3; omega
  exact ⟨hwg, hh, hlr, hopen⟩

/-- Witness for C3 at the post-`Start` state. -/
theorem stop_invariant_witness :
    Reachable started ∧
    started.listenerCloses = (if started.stopCalled then 1 else 0) :=
  ⟨Reachable.init, (stop_invariant started Reachable.init).1⟩

/-- Claim C5: half-close and joint cleanup.  In every reachable handler
    state, cleanup has run only if both relay directions are done, and until
    cleanup both read halves stay open; a direction reaching end-of-stream
    shuts down only the write half of that direction's destination,
    leaving every other half as it was, and the cleanup step is enabled
    only once both directions have completed. -/
theorem half_close_joint_cleanup (s : HandlerState) (h : HReachable s) :
    (s.cleanedUp = true → s.dir1Done = true ∧ s.dir2Done = true) ∧
    (s.cleanedUp = false → s.remoteReadOpen = true ∧ s.localReadOpen = true) ∧
    (∀ t, HStep .dir1EOF s t →
       t.remoteWriteOpen = false ∧ t.remoteReadOpen = s.remoteReadOpen ∧
       t.localWriteOpen = s.localWriteOpen ∧ t.localReadOpen = s.localReadOpen ∧
       t.cleanedUp = false) ∧
    (∀ t, HStep .dir2EOF s t →
       t.localWriteOpen = false ∧ t.localReadOpen = s.localReadOpen ∧
       t.remoteWriteOpen = s.remoteWriteOpen ∧ t.remoteReadOpen = s.remoteReadOpen ∧
       t.cleanedUp = false) ∧
    (∀ t, HStep .cleanup s t → s.dir1Done = true ∧ s.dir2Done = true) := by
  obtain ⟨i1, i2, _⟩ := hinv_reachable h
  refine ⟨i1, i2, ?_, ?_, ?_⟩
  · intro t hst
    cases hst with
    | dir1EOF s hd hc => exact ⟨rfl, rfl, rfl, rfl, hc⟩
  · intro t hst
    cases hst with
    | dir2EOF s hd hc => exact ⟨rfl, rfl, rfl, rfl, hc⟩
  · intro t hst
    cases hst with
    | cleanup s h1 h2 hc => exact ⟨h1, h2⟩

/-- Witness for C5 at the initial handler state. -/
theorem half_close_joint_cleanup_witness :
    HReachable handlerStart ∧
    (handlerStart.cleanedUp = false →
      handlerStart.remoteReadOpen = true ∧ handlerStart.localReadOpen = true) :=
  ⟨HReachable.init, (half_close_joint_cleanup handlerStart HReachable.init).2.1⟩

/-- Claim C6: bind-failure atomicity.  With a socket layer that fails to
    bind the port, `Start` returns the `BindError` and spawns no background
    work, and `Add` returns that error with the manager's `proxies`
    unchanged; with a socket layer that binds successfully, `Add` appends
    exactly the new proxy to `proxies`. -/
theorem bind_failure_atomicity (proxies : List ProxyRec) (localPort : Int)
    (remoteHost : String) (remotePort : Int) (e : BindError)
    (listenF listenS : Int → Except BindError Unit)
    (hf : listenF localPort = .error e) (hs : listenS localPort = .ok ()) :
    (start (New localPort remoteHost remotePort) listenF).fst = .error e ∧
    (start (New localPort remoteHost remotePort) listenF).snd = 0 ∧
    add proxies localPort remoteHost remotePort listenF = (some e, proxies) ∧
    add proxies localPort remoteHost remotePort listenS =
      (none, proxies ++ [New localPort remoteHost remotePort]) := by
  refine ⟨?_, ?_, ?_, ?_⟩ <;> simp [add, start, New, hf, hs]

/-- Witness for C6 at port 8080 with concrete failing and succeeding
    socket layers. -/
theorem bind_failure_atomicity_witness :
    (fun _ : Int => (.error ⟨8080⟩ : Except BindError Unit)) 8080 = .error ⟨8080⟩ ∧
    (fun _ : Int => (.ok () : Except BindError Unit)) 8080 = .ok () ∧
    add [] 8080 "10.0.3.2" 80 (fun _ => .error ⟨8080⟩) = (some ⟨8080⟩, []) :=
  ⟨rfl, rfl,
   (bind_failure_atomicity [] 8080 "10.0.3.2" 80 ⟨8080⟩
      (fun _ => .error ⟨8080⟩) (fun _ => .ok ()) rfl rfl).2.2.1⟩

/-- Claim C7: dial-failure containment.  When the dial of the remote target
    fails within `DialTimeout`, the handler closes the local connection and
    returns without relaying any byte and without surfacing any error,
    releasing its slot and wait-group mark no later than `DialTimeout`
    after accept; and a handler finishing affects no other connection and
    does not terminate the Forwarder (the accept loop and listener states
    are untouched, exactly one handler and one slot are removed). -/
theorem dial_failure_containment (d : DialResult) (relayed : List Nat)
    (relayDuration : Nat) (hd : d.success = false)
    (ht : d.elapsed ≤ DialTimeout) :
    (handleConnection d relayed relayDuration).localClosed = true ∧
    (handleConnection d relayed relayDuration).bytesRelayed = [] ∧
    (handleConnection d relayed relayDuration).errSurfaced = none ∧
    (handleConnection d relayed relayDuration).slotReleased = true ∧
    (handleConnection d relayed relayDuration).wgDone = true ∧
    (handleConnection d relayed relayDuration).finishedAt ≤ DialTimeout ∧
    (∀ s t, Step .handlerDone s t →
       t.loopRunning = s.loopRunning ∧ t.listenerOpen = s.listenerOpen ∧
       t.doneClosed = s.doneClosed ∧ t.handlers = s.handlers - 1 ∧
       t.semCount = s.semCount - 1 ∧ t.rejected = s.rejected) := by
  refine ⟨?_, ?_, ?_, ?_, ?_, ?_, ?_⟩
  · simp [handleConnection, hd]
  · simp [handleConnection, hd]
  · simp [handleConnection, hd]
  · simp [handleConnection, hd]
  · simp [handleConnection, hd]
  · simpa [handleConnection, hd] using ht
  · intro s t hst
    cases hst with
    | handlerDone s hh => exact ⟨rfl, rfl, rfl, rfl, rfl, rfl⟩

/-- Witness for C7 at a dial that fails after 5 seconds. -/
theorem dial_failure_containment_witness :
    (⟨false, 5⟩ : DialResult).success = false ∧
    (5 : Nat) ≤ DialTimeout ∧
    (handleConnection ⟨false, 5⟩ [7] 9).bytesRelayed = [] :=
  ⟨rfl, by decide,
   (dial_failure_containment ⟨false, 5⟩ [7] 9 rfl (by decide)).2.1⟩

/-- Claim C8: accept-loop error policy.  At any state where the accept loop
    is running, an accept error makes the loop exit exactly when the stop
    signal (`done`) has been raised; when it has not, the only transition
    for an accept error is the retry, which leaves the Forwarder state
    entirely unchanged — a single accept error never terminates the
    Forwarder. -/
theorem accept_error_policy (s : ForwarderState) (hloop : s.loopRunning = true) :
    ((∃ t, Step .acceptErrExit s t) ↔ s.doneClosed = true) ∧
    (s.doneClosed = false →
       Step .acceptErrRetry s s ∧ (∀ t, Step .acceptErrRetry s t → t = s)) := by
  constructor
  · constructor
    · rintro ⟨t, hst⟩
      cases hst with
      | acceptErrExit s hl hdone => exact hdone
    · intro hdone
      exact ⟨_, Step.acceptErrExit s hloop hdone⟩
  · intro hdone
    refine ⟨Step.acceptErrRetry s hloop hdone, fun t hst => ?_⟩
    cases hst with
    | acceptErrRetry s hl hd => rfl

/-- Witness for C8 at the post-`Start` state. -/
theorem accept_error_policy_witness :
    started.loopRunning = true ∧
    (started.doneClosed = false → Step Label.acceptErrRetry started started) :=
  ⟨rfl, fun h => ((accept_error_policy started rfl).2 h).1⟩

/-- Claim C9: repeated `Stop` panics.  In every reachable state in which
    `Stop` has already run once, the `done` channel is closed, so the
    `close(p.done)` performed by a second `Stop` call panics (Go panics on
    closing a closed channel) — a guaranteed panic, not a no-op. -/
theorem double_stop_panics (s : ForwarderState) (h : Reachable s)
    (hc : s.stopCalled = true) :
    s.doneClosed = true ∧ (stopCloseDone s).fst = StopOutcome.panicked := by
  obtain ⟨_, _, _, _, h5, _⟩ := inv_reachable h
  have hd : s.doneClosed = true := h5.mp hc
  exact ⟨hd, by simp [stopCloseDone, hd]⟩

/-- Witness for C9: the state reached by calling `Stop` once right after
    `Start`. -/
theorem double_stop_panics_witness :
    Reachable (stopBeginUpdate started) ∧
    (stopBeginUpdate started).stopCalled = true ∧
    (stopCloseDone (stopBeginUpdate started)).fst = StopOutcome.panicked :=
  ⟨Reachable.step Reachable.init (Step.stopBegin started rfl), rfl,
   (double_stop_panics (stopBeginUpdate started)
      (Reachable.step Reachable.init (Step.stopBegin started rfl)) rfl).2⟩

/-- Claim C10: no local-port range validation.  `New` stores any integer
    `localPort` unchanged (it can reject nothing), and `Start` fails exactly
    when the socket layer's listen fails — in particular, with a socket
    layer that binds port 0 to a system-assigned ephemeral port, `Start`
    on `localPort = 0` succeeds rather than returning a `BindError`. -/
theorem no_port_range_validation (listen0 : Int → Except BindError Unit)
    (h0 : listen0 0 = .ok ()) :
    (New 0 "127.0.0.1" 8080).localPort = 0 ∧
    (New (-7) "127.0.0.1" 8080).localPort = -7 ∧
    (New 70000 "127.0.0.1" 8080).localPort = 70000 ∧
    (start (New 0 "127.0.0.1" 8080) listen0).fst = .ok started ∧
    (∀ (p : ProxyRec) (listen : Int → Except BindError Unit) (e : BindError),
       (start p listen).fst = .error e ↔ listen p.localPort = .error e) := by
  refine ⟨rfl, rfl, rfl, by simp [start, New, h0], ?_⟩
  intro p listen e
  rcases hl : listen p.localPort with e' | u <;> simp [start, hl]

/-- Witness for C10 with a socket layer that accepts every port. -/
theorem no_port_range_validation_witness :
    (fun _ : Int => (.ok () : Except BindError Unit)) 0 = .ok () ∧
    (start (New 0 "127.0.0.1" 8080) (fun _ => .ok ())).fst = .ok started :=
  ⟨rfl, (no_port_range_validation (fun _ => .ok ()) rfl).2.2.2.1⟩

/-- Claim C4 (divergence evidence): the code sets one absolute deadline of
    `ConnectionTimeout` at handler start, so a connection whose I/O
    completes at 10, 20, 30 and 40 seconds — never silent for more than 10
    seconds — is aborted by the code (`deadlineAborts`), while the claimed
    idle-deadline semantics (`specIdleAborts`) would not abort it. -/
theorem idle_deadline_code_divergence :
    deadlineAborts [10, 20, 30, 40] = true ∧
    specIdleAborts [10, 20, 30, 40] = false := by decide

end Proxy
